import Mathlib

/-!
# Verification of the `rsd-summerschool` teaching notebooks

A shallow embedding, in Lean 4, of the Python code fragments of the
UCL-ARC `rsd-summerschool` repository that the specification talks about:

* the `pydantic` `Person` validators of
  `ch01dataanddesign/120dataclass.ipynb.py`;
* `Calculator.idx` of `ch01dataanddesign/115typehints.ipynb.py`;
* the `Greengraph` / `Map` example of `ch01dataanddesign/greengraph/`;
* `smart_square` of `ch02testsandsmells/05Advanced.ipynb.py`;
* the Mandelbrot functions `mandel1`, `mandel4`, `mandel5`, `mandel6`,
  `mandel7` of `ch04performance/020numpy.ipynb.py`.

Modelling conventions, used throughout:

* Python `int` is `Int`; Python `float` is modelled as an exact rational
  (`ℚ`): none of the verified properties depends on rounding, only on
  control flow and on exact comparisons of small values.
* Python `complex` is modelled as a pair of rationals (`PyComplex`).
* A raised exception is an `Except.error` value; `PyErr` distinguishes the
  exception classes the claims talk about.
* External effects (the HTTP fetch of `requests.get`, the image decoding
  of `iio.imread`, the geocoding of `geopy`) are oracle functions passed
  as explicit arguments; the floating point `math` library of Python is
  an explicit `MathOps` record of uninterpreted functions.
* NumPy arrays are lists (flattened, or lists of rows where the code
  addresses two dimensions); elementwise NumPy operations are `zipWith`
  and `map`; an in-place masked assignment `a[mask] = v` is modelled by
  binding the name to the updated list, and the embedding threads every
  array that the Python code can see through the loop explicitly.
-/

/-- The exception classes distinguished by the embedded code. -/
inductive PyErr where
  | valueError (msg : String)
  | indexError
  | notImplementedError
deriving DecidableEq, Repr

/-! ## `Person` validators (`ch01dataanddesign/120dataclass.ipynb.py`)

The pydantic `Person` model has fields `birth_day`, `birth_month`,
`birth_year : int` and `name : str`.  Both validators are embedded as
functions from the four field values to `Except String`, an `Except.error`
being a raised `ValueError` (which pydantic turns into a validation
error). -/

/-- Python's substring test `needle in hay` on strings. -/
def pyInStr (needle hay : String) : Prop :=
  needle.data <:+: hay.data

instance (needle hay : String) : Decidable (pyInStr needle hay) := by
  unfold pyInStr
  infer_instance

/-- Membership of `" "` is the same as membership of the space character. -/
theorem pyInStr_space (hay : String) : pyInStr " " hay ↔ ' ' ∈ hay.data := by
  constructor
  · rintro ⟨s, t, h⟩
    rw [← h]
    simp [String.data]
  · intro h
    rcases List.mem_iff_append.mp h with ⟨s, t, h⟩
    exact ⟨s, t, by simp [h, String.data]⟩

/-- The `@field_validator("name")` of the second `Person` model:

```python
if " " not in v:
    raise ValueError("the name must have first and last names separated by <space>")
return v
``` -/
def validate_name (v : String) : Except String String :=
  if ¬ pyInStr " " v then
    Except.error "the name must have first and last names separated by <space>"
  else
    Except.ok v

/-- The `@model_validator(mode="after")` of the third `Person` model,
embedded at the level of its field accesses (`v["name"]`, `v["birth_day"]`,
`v["birth_month"]`, `v["birth_year"]`), with each `raise ValueError`
an `Except.error` carrying the message:

```python
if " " not in v["name"]: raise ValueError(...)
if v["birth_month"] < 1 or v["birth_month"] > 12: raise ValueError(...)
if v["birth_month"] in [1, 3, 5, 7, 8, 10, 12] and (v["birth_day"] < 1 or v["birth_day"] > 31): raise ...
if v["birth_month"] in [4, 6, 9, 11] and (v["birth_day"] < 1 or v["birth_day"] > 31): raise ...
if v["birth_month"] == 2:
    if (v["birth_year"] % 400 == 0 or v["birth_year"] % 4 == 0):
        if v["birth_day"] < 1 or v["birth_day"] > 29: raise ...
    else:
        raise ...
return v
```

Note the code the embedding mirrors: the 30-day-month branch tests
`> 31` (not `> 30`), and the February `else` branch raises
unconditionally. -/
def validate_person (birth_day birth_month birth_year : Int)
    (name : String) : Except String Unit :=
  if ¬ pyInStr " " name then
    Except.error "the name must have first and last names separated by <space>"
  else if birth_month < 1 ∨ birth_month > 12 then
    Except.error "birth month should be between 1 and 12"
  else if birth_month ∈ [1, 3, 5, 7, 8, 10, 12] ∧
      (birth_day < 1 ∨ birth_day > 31) then
    Except.error "birth day should be between 1 and 31"
  else if birth_month ∈ [4, 6, 9, 11] ∧
      (birth_day < 1 ∨ birth_day > 31) then
    Except.error "birth day should be between 1 and 30"
  else if birth_month = 2 then
    if birth_year % 400 = 0 ∨ birth_year % 4 = 0 then
      if birth_day < 1 ∨ birth_day > 29 then
        Except.error "birth day should be between 1 and 29"
      else
        Except.ok ()
    else
      Except.error "birth day should be between 1 and 28"
  else
    Except.ok ()

/-- The real calendar rule the claim about the model validator states:
day 1-31 for the 31-day months, 1-30 for the 30-day months, and for
February 1-29 in leap years, 1-28 otherwise. -/
def valid_birth_date (birth_day birth_month birth_year : Int) : Prop :=
  (birth_month ∈ ([1, 3, 5, 7, 8, 10, 12] : List Int) ∧ 1 ≤ birth_day ∧ birth_day ≤ 31) ∨
  (birth_month ∈ ([4, 6, 9, 11] : List Int) ∧ 1 ≤ birth_day ∧ birth_day ≤ 30) ∨
  (birth_month = 2 ∧ 1 ≤ birth_day ∧
    birth_day ≤ (if birth_year % 4 = 0 ∧ (birth_year % 100 ≠ 0 ∨ birth_year % 400 = 0) then 29 else 28))

instance (d m y : Int) : Decidable (valid_birth_date d m y) := by
  unfold valid_birth_date
  infer_instance

/-! ## `Calculator.idx` (`ch01dataanddesign/115typehints.ipynb.py`)

`Calculator` stores a field `a` of the alias type `number = int | float`.
Python sequence indexing `sqnc[i]` is embedded with its negative-index
semantics, raising `IndexError` out of range. -/

/-- The Python numeric union `number = Union[int, float]`. -/
inductive PyNumber where
  | int (i : Int)
  | float (q : ℚ)
deriving DecidableEq, Repr

/-- Python sequence indexing `sqnc[i]` for an `int` index: an index in
`[-len, len)` selects an element (negative indices count from the end),
anything else raises `IndexError`. -/
def pyIndex {T : Type} (sqnc : List T) (i : Int) : Except PyErr T :=
  if h : 0 ≤ i ∧ i < sqnc.length then
    Except.ok (sqnc.get ⟨i.toNat, by omega⟩)
  else if h2 : -(sqnc.length : Int) ≤ i ∧ i < 0 then
    Except.ok (sqnc.get ⟨(i + sqnc.length).toNat, by omega⟩)
  else
    Except.error PyErr.indexError

/-- `Calculator.idx`:

```python
def idx(self, sqnc: Sequence[T]) -> T:
    if isinstance(self.a, float):
        raise ValueError("a should be int")
    try:
        rslt = sqnc[self.a]
    except IndexError:
        raise ValueError("sequence too small")
    return rslt
```

`a` is the `Calculator` field `self.a`; the `try`/`except IndexError`
catches exactly `indexError` results of the indexing. -/
def Calculator.idx {T : Type} (a : PyNumber) (sqnc : List T) :
    Except PyErr T :=
  match a with
  | PyNumber.float _ => Except.error (PyErr.valueError "a should be int")
  | PyNumber.int i =>
    match pyIndex sqnc i with
    | Except.error PyErr.indexError =>
        Except.error (PyErr.valueError "sequence too small")
    | Except.error e => Except.error e
    | Except.ok rslt => Except.ok rslt

/-! ## `smart_square` (`ch02testsandsmells/05Advanced.ipynb.py`)

The argument has the annotated type `float | int | bool | str`.
`isinstance` is embedded with Python's subtyping: `bool` is a subclass of
`int`, so `isinstance(a, (float, int))` is true of `bool` values too.
`float(...)` applied to a string is the oracle `parse` (which strings the
float constructor accepts is a library matter the claims do not depend
on); applied to a `bool` it gives `1.0` / `0.0`.  A function body that
falls off the end returns Python's `None`, modelled by `Option.none`. -/

/-- A value of the annotated union type `float | int | bool | str`. -/
inductive PyVal where
  | int (i : Int)
  | float (q : ℚ)
  | bool (b : Bool)
  | str (s : String)
deriving DecidableEq, Repr

/-- `isinstance(a, (float, int))`; true of `bool` values because `bool`
is a subclass of `int` in Python. -/
def isinstance_float_int : PyVal → Bool
  | PyVal.int _ => true
  | PyVal.float _ => true
  | PyVal.bool _ => true
  | PyVal.str _ => false

/-- `isinstance(a, (str, bool))`. -/
def isinstance_str_bool : PyVal → Bool
  | PyVal.str _ => true
  | PyVal.bool _ => true
  | _ => false

/-- `isinstance(a, (float, int, bool, str))`. -/
def isinstance_any : PyVal → Bool
  | _ => true

/-- Python `a * a` on a value of the union type: `int * int` is an `int`,
`float * float` a `float`, `bool * bool` an `int` (`True` is `1`). -/
def pyMulSelf : PyVal → PyVal
  | PyVal.int i => PyVal.int (i * i)
  | PyVal.float q => PyVal.float (q * q)
  | PyVal.bool b => PyVal.int (if b then 1 else 0)
  | PyVal.str s => PyVal.str s

/-- The printed type name used in the error message f-string. -/
def pyTypeName : PyVal → String
  | PyVal.int _ => "int"
  | PyVal.float _ => "float"
  | PyVal.bool _ => "bool"
  | PyVal.str _ => "str"

/-- `float(a)` for `a` in the branch `isinstance(a, (str, bool))`:
parsing a string may raise `ValueError` (the oracle returning `none`),
a `bool` converts exactly. -/
def pyFloatOf (parse : String → Option ℚ) : PyVal → Except PyErr ℚ
  | PyVal.str s =>
    match parse s with
    | some q => Except.ok q
    | none => Except.error (PyErr.valueError "could not convert string to float")
  | PyVal.bool b => Except.ok (if b then 1 else 0)
  | PyVal.int i => Except.ok i
  | PyVal.float q => Except.ok q

/-- `smart_square`:

```python
def smart_square(a: float | int | bool | str) -> int | float:
    if isinstance(a, (float, int)):
        return a * a
    elif isinstance(a, (str, bool)):
        try:
            result = float(a) * float(a)
            return result
        except ValueError:
            raise ValueError(f"a should be of type float/int or convertible to float; got {type(a)}")
    elif not isinstance(a, (float, int, bool, str)):
        raise NotImplementedError
```

The `try` catches exactly `ValueError` from the conversions. -/
def smart_square (parse : String → Option ℚ) (a : PyVal) :
    Except PyErr (Option PyVal) :=
  if isinstance_float_int a then
    Except.ok (some (pyMulSelf a))
  else if isinstance_str_bool a then
    match pyFloatOf parse a with
    | Except.ok q => Except.ok (some (PyVal.float (q * q)))
    | Except.error (PyErr.valueError _) =>
        Except.error (PyErr.valueError
          ("a should be of type float/int or convertible to float; got " ++ pyTypeName a))
    | Except.error e => Except.error e
  else if ¬ isinstance_any a then
    Except.error PyErr.notImplementedError
  else
    Except.ok none

/-! ## `Greengraph` / `Map` (`ch01dataanddesign/greengraph/`)

`Map.__init__` builds one HTTP GET request to the tile server and decodes
the response bytes into a pixel array; `Greengraph` geocodes two place
names and walks a line between them.  The network, the image decoder and
the geocoder are oracles; Python's `math` library is the `MathOps`
record. -/

/-- The functions of Python's floating point `math` library used by
`deg2num`, plus `math.pi`, as uninterpreted rational-valued operations. -/
structure MathOps where
  radians : ℚ → ℚ
  tan : ℚ → ℚ
  asinh : ℚ → ℚ
  pi : ℚ

/-- Python's `int(x)` on a float: truncation toward zero. -/
def pyInt (q : ℚ) : Int :=
  if 0 ≤ q then ⌊q⌋ else ⌈q⌉

/-- `Map.deg2num` (the method never reads `self`, so the embedding is a
plain function of the three arguments and the math library):

```python
lat_rad = math.radians(latitude)
n = 2.0 ** zoom
x_tiles_coord = int((longitude + 180.0) / 360.0 * n)
y_tiles_coord = int((1.0 - math.asinh(math.tan(lat_rad)) / math.pi) / 2.0 * n)
return (x_tiles_coord, y_tiles_coord)
``` -/
def deg2num (M : MathOps) (latitude longitude : ℚ) (zoom : Nat) :
    Int × Int :=
  let lat_rad := M.radians latitude
  let n : ℚ := 2 ^ zoom
  let x_tiles_coord := pyInt ((longitude + 180) / 360 * n)
  let y_tiles_coord := pyInt ((1 - M.asinh (M.tan lat_rad) / M.pi) / 2 * n)
  (x_tiles_coord, y_tiles_coord)

/-- One outbound HTTP GET request: the base URL and the query
parameters, each rendered to a string as `requests` does. -/
structure Request where
  base : String
  params : List (String × String)
deriving DecidableEq, Repr

/-- An RGB pixel; channel values compared as exact rationals. -/
structure Pixel where
  red : ℚ
  green : ℚ
  blue : ℚ
deriving DecidableEq, Repr

/-- The state of a constructed `Map`: the raw fetched bytes
(`self.image`) and the decoded pixel rows (`self.pixels`). -/
structure MapModel where
  image : List Nat
  pixels : List (List Pixel)
deriving DecidableEq, Repr

/-- The request `Map.__init__` builds:

```python
base = "https://mt0.google.com/vt?"
x_coord, y_coord = self.deg2num(latitude, longitude, zoom)
params = dict(x=x_coord, y=y_coord, z=zoom)
if satellite:
    params['lyrs'] = 's'
``` -/
def mapRequest (M : MathOps) (latitude longitude : ℚ) (satellite : Bool)
    (zoom : Nat) : Request :=
  let base := "https://mt0.google.com/vt?"
  let xy := deg2num M latitude longitude zoom
  let params := [("x", toString xy.1), ("y", toString xy.2), ("z", toString (zoom : Int))]
  let params := if satellite then params ++ [("lyrs", "s")] else params
  ⟨base, params⟩

/-- `Map.__init__`: issue the GET, store the response bytes in
`self.image`, decode them into `self.pixels`:

```python
self.image = requests.get(base, params=params).content
content = BytesIO(self.image)
self.pixels = iio.imread(content)
```

The first component is the constructed state (or the exception that
propagated out of the fetch or the decode — nothing is caught); the
second is the trace of HTTP requests issued, in order. -/
def mapInit (M : MathOps) (fetch : Request → Except PyErr (List Nat))
    (imread : List Nat → Except PyErr (List (List Pixel)))
    (latitude longitude : ℚ) (satellite : Bool) (zoom : Nat) :
    Except PyErr MapModel × List Request :=
  let req := mapRequest M latitude longitude satellite zoom
  (do
    let image ← fetch req
    let pixels ← imread image
    pure ⟨image, pixels⟩,
    [req])

/-- The bound method `self.deg2num`: `self` is never read by the body
(named `deg2num_self` because inside `MapModel.deg2num` Lean would
resolve `deg2num` to the recursive occurrence). -/
def MapModel.deg2num_self (_self : MapModel) (M : MathOps)
    (latitude longitude : ℚ) (zoom : Nat) : (Int × Int) × MapModel :=
  (deg2num M latitude longitude zoom, _self)

/-- `Map.green`:

```python
red, green, blue = range(3)
greener_than_red = self.pixels[:, :, green] > threshold * self.pixels[:, :, red]
greener_than_blue = self.pixels[:, :, green] > threshold * self.pixels[:, :, blue]
green = np.logical_and(greener_than_red, greener_than_blue)
return green
```

The method reads `self.pixels` only and assigns no field; the embedding
returns the boolean rows together with the unchanged state. -/
def MapModel.green (self : MapModel) (threshold : ℚ) :
    List (List Bool) × MapModel :=
  (self.pixels.map (fun row => row.map (fun p =>
    decide (threshold * p.red < p.green) && decide (threshold * p.blue < p.green))),
   self)

/-- `Map.count_green`: `np.sum` of the boolean array `self.green(threshold)`,
i.e. the number of `True` entries. -/
def MapModel.count_green (self : MapModel) (threshold : ℚ) :
    Nat × MapModel :=
  let g := self.green threshold
  ((g.1.map (fun row => row.count true)).sum, g.2)

/-- `np.linspace(start, stop, num)`: `num` evenly spaced samples with the
endpoints included (`num = 1` gives `[start]`, `num = 0` gives `[]`). -/
def pyLinspace (start stop : ℚ) (num : Nat) : List ℚ :=
  if num ≤ 1 then
    (List.range num).map (fun _ => start)
  else
    (List.range num).map (fun i => start + (stop - start) * i / (num - 1))

/-- `Greengraph.location_sequence`: the `steps` points of the line from
`start` to `end`, as latitude/longitude pairs
(`np.vstack([lats, longs]).transpose()`). -/
def location_sequence (start stop : ℚ × ℚ) (steps : Nat) :
    List (ℚ × ℚ) :=
  List.zip (pyLinspace start.1 stop.1 steps) (pyLinspace start.2 stop.2 steps)

/-- `Greengraph.geolocate`:

```python
return self.geocoder.geocode(place, exactly_one=False)[0][1]
```

The geocoder oracle returns the list of `(name, point)` results or
raises; `[0]` is Python indexing (an empty result list raises
`IndexError`), `[1]` selects the point.  Nothing is caught. -/
def geolocate (geocode : String → Except PyErr (List (String × (ℚ × ℚ))))
    (place : String) : Except PyErr (ℚ × ℚ) := do
  let results ← geocode place
  let first ← pyIndex results 0
  pure first.2

/-- `Greengraph.green_between`:

```python
sequence = self.location_sequence(
    start=self.geolocate(self.start), end=self.geolocate(self.end), steps=steps)
maps = [Map(*location) for location in sequence]
self.green_at_each_location = [current_map.count_green() for current_map in maps]
return self.green_at_each_location
```

`Map(*location)` uses the defaults `satellite=True, zoom=10`;
`count_green()` uses the default threshold `1.1`.  Any exception from
geocoding, fetching or decoding propagates; nothing is caught. -/
def green_between (M : MathOps)
    (fetch : Request → Except PyErr (List Nat))
    (imread : List Nat → Except PyErr (List (List Pixel)))
    (geocode : String → Except PyErr (List (String × (ℚ × ℚ))))
    (start stop : String) (steps : Nat) : Except PyErr (List Nat) := do
  let s ← geolocate geocode start
  let e ← geolocate geocode stop
  let sequence := location_sequence s e steps
  let maps ← sequence.mapM (fun location =>
    (mapInit M fetch imread location.1 location.2 true 10).1)
  pure (maps.map (fun current_map => (current_map.count_green (11/10)).1))

/-! ## Mandelbrot functions (`ch04performance/020numpy.ipynb.py`)

Python `complex` values are pairs of rationals.  `abs(value)` is the real
square root of the norm; the NumPy comparison `value * np.conj(value) > 4`
orders complex values lexicographically (real part, then imaginary part)
against the scalar `4` (that is, `4 + 0j`). -/

/-- A Python `complex` value, components exact rationals. -/
structure PyComplex where
  re : ℚ
  im : ℚ
deriving DecidableEq, Repr

namespace PyComplex

/-- Complex addition. -/
def add (a b : PyComplex) : PyComplex :=
  ⟨a.re + b.re, a.im + b.im⟩

/-- Complex multiplication. -/
def mul (a b : PyComplex) : PyComplex :=
  ⟨a.re * b.re - a.im * b.im, a.re * b.im + a.im * b.re⟩

/-- `np.conj`. -/
def conj (a : PyComplex) : PyComplex :=
  ⟨a.re, -a.im⟩

/-- The squared norm `re² + im²` (a rational). -/
def normSq (a : PyComplex) : ℚ :=
  a.re ^ 2 + a.im ^ 2

/-- `abs(value)`: the real absolute value of the complex number. -/
noncomputable def absC (a : PyComplex) : ℝ :=
  Real.sqrt ((a.re : ℝ) ^ 2 + (a.im : ℝ) ^ 2)

end PyComplex

/-- The divergence test `abs(value) < 2` of `mandel1`. -/
def absLt2 (z : PyComplex) : Prop :=
  z.absC < 2

/-- The divergence test `abs(value) > 2` of `mandel4`. -/
def absGt2 (z : PyComplex) : Prop :=
  2 < z.absC

/-- `abs(value) < 2` is decidable: it holds exactly when `normSq < 4`. -/
theorem absLt2_iff (z : PyComplex) : absLt2 z ↔ z.normSq < 4 := by
  unfold absLt2 PyComplex.absC
  rw [show ((2 : ℝ) = √(2 ^ 2)) from (Real.sqrt_sq (by norm_num)).symm,
    Real.sqrt_lt_sqrt_iff (by positivity)]
  rw [show ((4 : ℚ) = 2 ^ 2) by norm_num]
  unfold PyComplex.normSq
  constructor
  · intro h
    exact_mod_cast h
  · intro h
    exact_mod_cast h

/-- `abs(value) > 2` is decidable: it holds exactly when `normSq > 4`. -/
theorem absGt2_iff (z : PyComplex) : absGt2 z ↔ 4 < z.normSq := by
  unfold absGt2 PyComplex.absC
  rw [Real.lt_sqrt (by norm_num)]
  rw [show ((4 : ℚ) = 2 ^ 2) by norm_num]
  unfold PyComplex.normSq
  constructor
  · intro h
    exact_mod_cast h
  · intro h
    exact_mod_cast h

instance (z : PyComplex) : Decidable (absLt2 z) :=
  decidable_of_iff _ (absLt2_iff z).symm

instance (z : PyComplex) : Decidable (absGt2 z) :=
  decidable_of_iff _ (absGt2_iff z).symm

/-- NumPy ordering of a complex value against a real scalar `r`:
lexicographic on (real part, imaginary part), the scalar being `r + 0j`.
This is the comparison `value * np.conj(value) > 4` elaborates to. -/
def npCgt (w : PyComplex) (r : ℚ) : Prop :=
  r < w.re ∨ (w.re = r ∧ 0 < w.im)

instance (w : PyComplex) (r : ℚ) : Decidable (npCgt w r) := by
  unfold npCgt
  infer_instance

/-- `mandel1`, the scalar loop:

```python
def mandel1(position, limit=50):
    value = position
    while abs(value) < 2:
        limit -= 1
        value = value**2 + position
        if limit < 0:
            return 0
    return limit
```

The loop body decrements `limit` and returns `0` as soon as it becomes
negative, so the recursion is on `(limit + 1).toNat`. -/
def mandel1Loop (position value : PyComplex) (limit : Int) : Int :=
  if absLt2 value then
    let limit2 := limit - 1
    let value2 := (value.mul value).add position
    if h : limit2 < 0 then 0
    else mandel1Loop position value2 limit2
  else limit
termination_by (limit + 1).toNat
decreasing_by
  simp only [limit2] at h ⊢
  omega

/-- `mandel1(position, limit)` with `value = position` initially. -/
def mandel1 (position : PyComplex) (limit : Int) : Int :=
  mandel1Loop position position limit

/-- One position array: elementwise `value**2 + position`. -/
def mandelSquareAdd (value position : List PyComplex) : List PyComplex :=
  List.zipWith (fun v p => (v.mul v).add p) value position

/-- `mandel4`'s loop, recursion on the decremented `limit`:

```python
while limit > 0:
    limit -= 1
    value = value**2 + position
    diverging = abs(value) > 2
    first_diverged_this_time = np.logical_and(diverging, diverged_at_count == 0)
    diverged_at_count[first_diverged_this_time] = limit
    value[diverging] = 2
return diverged_at_count
```

`diverged_at_count` starts as `np.zeros(position.shape)`; the values it
stores are the decremented loop counters. -/
def mandel4Loop (position : List PyComplex) :
    List PyComplex → List Nat → Nat → List PyComplex × List Nat
  | value, count, 0 => (value, count)
  | value, count, l + 1 =>
    let value2 := mandelSquareAdd value position
    let diverging := value2.map (fun v => decide (absGt2 v))
    let first := List.zipWith (fun d c => d && decide (c = 0)) diverging count
    let count2 := List.zipWith (fun f c => if f then l else c) first count
    let value3 := List.zipWith (fun d v => if d then (⟨2, 0⟩ : PyComplex) else v)
      diverging value2
    mandel4Loop position value3 count2 l

/-- `mandel4(position, limit)`: `value = position`,
`diverged_at_count = np.zeros(position.shape)`, then the loop. -/
def mandel4 (position : List PyComplex) (limit : Nat) : List Nat :=
  (mandel4Loop position position (position.map (fun _ => 0)) limit).2

/-- `mandel5`'s loop: identical to `mandel4`'s except for the
square-root-free divergence test

```python
diverging = value * np.conj(value) > 4
``` -/
def mandel5Loop (position : List PyComplex) :
    List PyComplex → List Nat → Nat → List PyComplex × List Nat
  | value, count, 0 => (value, count)
  | value, count, l + 1 =>
    let value2 := mandelSquareAdd value position
    let diverging := value2.map (fun v => decide (npCgt (v.mul v.conj) 4))
    let first := List.zipWith (fun d c => d && decide (c = 0)) diverging count
    let count2 := List.zipWith (fun f c => if f then l else c) first count
    let value3 := List.zipWith (fun d v => if d then (⟨2, 0⟩ : PyComplex) else v)
      diverging value2
    mandel5Loop position value3 count2 l

/-- `mandel5(position, limit)`. -/
def mandel5 (position : List PyComplex) (limit : Nat) : List Nat :=
  (mandel5Loop position position (position.map (fun _ => 0)) limit).2

/-- `mandel6`'s loop:

```python
while limit > 0:
    limit -= 1
    value[calculating] = value[calculating]**2 + position[calculating]
    diverging_now = np.zeros(position.shape, dtype='bool')
    diverging_now[calculating] = value[calculating] * np.conj(value[calculating]) > 4
    calculating = np.logical_and(calculating, np.logical_not(diverging_now))
    diverged_at_count[diverging_now] = limit
return diverged_at_count
```

The masked updates are elementwise: an entry changes exactly when its
mask bit is set. -/
def mandel6Loop (position : List PyComplex) :
    List PyComplex → List Bool → List Nat → Nat → List Nat
  | _, _, count, 0 => count
  | value, calculating, count, l + 1 =>
    let value2 := List.zipWith3 (fun c v p => if c then (v.mul v).add p else v)
      calculating value position
    let diverging_now := List.zipWith
      (fun c v => c && decide (npCgt (v.mul v.conj) 4)) calculating value2
    let calculating2 := List.zipWith (fun c d => c && !d) calculating diverging_now
    let count2 := List.zipWith (fun d c => if d then l else c) diverging_now count
    mandel6Loop position value2 calculating2 count2 l

/-- `mandel6(position, limit)`: `value = np.zeros(position.shape) + position`
(a fresh copy with the same entries), `calculating` all `True`,
`diverged_at_count` all zero. -/
def mandel6 (position : List PyComplex) (limit : Nat) : List Nat :=
  mandel6Loop position position (position.map (fun _ => true))
    (position.map (fun _ => 0)) limit

/-! ### `mandel7`

`mandel7` works on compressed (boolean-mask filtered, hence flattened)
arrays, scattering results back into the two-dimensional
`diverged_at_count` through an index grid.  The index grid is built from
the shape of the module-level array `values`, not from the `position`
argument:

```python
indices = np.mgrid[0:values.shape[0], 0:values.shape[1]]
```

so the embedding takes that module-level shape as an explicit input.
Boolean-mask indexing requires the mask to cover the indexed array; the
embedding checks that the element counts agree (NumPy compares the
shapes; arrays of equal element count but different shape are not
distinguished by the flattened model, and no property below depends on
that case) and raises `IndexError` on a mismatch, as NumPy does. -/

/-- Select the entries of `xs` whose mask bit is set
(NumPy boolean-mask indexing, after the compatibility check). -/
def maskSelect {α : Type} (xs : List α) (mask : List Bool) : List α :=
  ((xs.zip mask).filter (fun e => e.2)).map (fun e => e.1)

/-- The flattened index grid `np.mgrid[0:r, 0:c]`, as row-major pairs. -/
def mgridIndices (r c : Nat) : List (Nat × Nat) :=
  (List.range r).flatMap (fun i => (List.range c).map (fun j => (i, j)))

/-- Scatter assignment `diverged_at_count[i, j] = v` for one index pair;
out of range raises `IndexError`. -/
def scatterSet (count : List (List Nat)) (ij : Nat × Nat) (v : Nat) :
    Except PyErr (List (List Nat)) :=
  match count.get? ij.1 with
  | none => Except.error PyErr.indexError
  | some row =>
    if ij.2 < row.length then
      Except.ok (count.set ij.1 (row.set ij.2 v))
    else
      Except.error PyErr.indexError

/-- Scatter assignment over a list of index pairs
(`diverged_at_count[idx0, idx1] = limit`). -/
def scatter (count : List (List Nat)) (ijs : List (Nat × Nat)) (v : Nat) :
    Except PyErr (List (List Nat)) :=
  ijs.foldlM (fun c ij => scatterSet c ij v) count

/-- `mandel7`'s loop:

```python
while limit > 0:
    limit -= 1
    value = value**2 + positions
    diverging_now = value * np.conj(value) > 4
    diverging_now_indices = indices[:, diverging_now]
    carry_on = np.logical_not(diverging_now)
    value = value[carry_on]
    indices = indices[:, carry_on]
    positions = positions[carry_on]
    diverged_at_count[diverging_now_indices[0,:], diverging_now_indices[1,:]] = limit
return diverged_at_count
``` -/
def mandel7Loop (count : List (List Nat)) (value positions : List PyComplex)
    (indices : List (Nat × Nat)) : Nat → Except PyErr (List (List Nat))
  | 0 => Except.ok count
  | l + 1 =>
    let value2 := mandelSquareAdd value positions
    let diverging_now := value2.map (fun v => decide (npCgt (v.mul v.conj) 4))
    if diverging_now.length ≠ indices.length then
      Except.error PyErr.indexError
    else
      let diverging_now_indices := maskSelect indices diverging_now
      let carry_on := diverging_now.map (fun d => !d)
      let value3 := maskSelect value2 carry_on
      let indices2 := maskSelect indices carry_on
      let positions2 := maskSelect positions carry_on
      match scatter count diverging_now_indices l with
      | Except.error e => Except.error e
      | Except.ok count2 => mandel7Loop count2 value3 positions2 indices2 l

/-- `mandel7(position, limit)`.  `position` is the two-dimensional
argument array; `valuesShape` is the shape of the module-level `values`
array the index grid is built from.  `positions` and `value` are fresh
copies of `position` (` np.zeros(position.shape) + position`),
`diverged_at_count` is all zero of `position`'s shape. -/
def mandel7 (valuesShape : Nat × Nat) (position : List (List PyComplex))
    (limit : Nat) : Except PyErr (List (List Nat)) :=
  mandel7Loop (position.map (fun row => row.map (fun _ => 0)))
    position.flatten position.flatten
    (mgridIndices valuesShape.1 valuesShape.2) limit

/-! ## Theorems -/

/-- C5: for every string `v`, the `name` field validator returns `v`
unchanged when `v` contains at least one space character, and raises
`ValueError` with the message
`the name must have first and last names separated by <space>` when it
contains no space. -/
theorem validate_name_spec (v : String) :
    (validate_name v = Except.ok v ↔ ' ' ∈ v.data) ∧
    (validate_name v =
        Except.error "the name must have first and last names separated by <space>"
      ↔ ¬ ' ' ∈ v.data) := by
  rw [← pyInStr_space]
  by_cases h : pyInStr " " v
  · simp [validate_name, h]
  · simp [validate_name, h]

/-- C1 is a code bug: the model validator accepts April 31 (its 30-day
branch tests `> 31` while its own message says the day should be between
1 and 30), rejects the perfectly valid 10 February 2001 (its February
`else` branch raises unconditionally), and accepts 29 February 1900 (its
leap test `year % 400 == 0 or year % 4 == 0` collapses to `year % 4 == 0`).
Each conjunct evaluates the embedded validator at the failing input and
compares with the calendar rule the claim states. -/
theorem validate_person_accepts_invalid_and_rejects_valid :
    validate_person 31 4 2000 "John Doe" = Except.ok () ∧
    ¬ valid_birth_date 31 4 2000 ∧
    validate_person 10 2 2001 "John Doe" =
      Except.error "birth day should be between 1 and 28" ∧
    valid_birth_date 10 2 2001 ∧
    validate_person 29 2 1900 "John Doe" = Except.ok () ∧
    ¬ valid_birth_date 29 2 1900 := by
  refine ⟨rfl, by decide, rfl, by decide, rfl, by decide⟩

/-- Every error result of `pyIndex` is an `IndexError`. -/
theorem pyIndex_error {T : Type} (sqnc : List T) (i : Int) (e : PyErr)
    (h : pyIndex sqnc i = Except.error e) : e = PyErr.indexError := by
  unfold pyIndex at h
  split at h
  · exact absurd h (by simp)
  · split at h
    · exact absurd h (by simp)
    · exact (Except.error.injEq _ _).mp h.symm |>.symm ▸ rfl

/-- C2: `Calculator.idx` raises `ValueError("a should be int")` whenever
the field `a` is a float; for an int `a` it raises
`ValueError("sequence too small")` exactly when indexing `sqnc` at `a`
raises `IndexError`, and otherwise returns `sqnc[a]`; no `IndexError`
ever escapes. -/
theorem calculator_idx_spec {T : Type} (a : PyNumber) (sqnc : List T) :
    (∀ q, a = PyNumber.float q →
      Calculator.idx a sqnc = Except.error (PyErr.valueError "a should be int")) ∧
    (∀ i, a = PyNumber.int i →
      (pyIndex sqnc i = Except.error PyErr.indexError →
        Calculator.idx a sqnc =
          Except.error (PyErr.valueError "sequence too small")) ∧
      (∀ x, pyIndex sqnc i = Except.ok x →
        Calculator.idx a sqnc = Except.ok x)) ∧
    Calculator.idx a sqnc ≠ Except.error PyErr.indexError := by
  refine ⟨?_, ?_, ?_⟩
  · rintro q rfl
    rfl
  · rintro i rfl
    constructor
    · intro h
      simp [Calculator.idx, h]
    · intro x h
      simp [Calculator.idx, h]
  · cases a with
    | float q => simp [Calculator.idx]
    | int i =>
      cases h : pyIndex sqnc i with
      | ok x => simp [Calculator.idx, h]
      | error e =>
        have := pyIndex_error sqnc i e h
        subst this
        simp [Calculator.idx, h]

/-- Witness for C2 at concrete inputs: index `5` into `[10, 20]` (too
small), index `0` (in range), and a float field. -/
theorem calculator_idx_spec_witness :
    Calculator.idx (PyNumber.int 5) ([10, 20] : List Nat) =
      Except.error (PyErr.valueError "sequence too small") ∧
    Calculator.idx (PyNumber.int 0) ([10, 20] : List Nat) = Except.ok 10 ∧
    Calculator.idx (PyNumber.float (1/2)) ([10, 20] : List Nat) =
      Except.error (PyErr.valueError "a should be int") :=
  ⟨((calculator_idx_spec (PyNumber.int 5) [10, 20]).2.1 5 rfl).1 rfl,
   ((calculator_idx_spec (PyNumber.int 0) [10, 20]).2.1 0 rfl).2 10 rfl,
   (calculator_idx_spec (PyNumber.float (1/2)) [10, 20]).1 (1/2) rfl⟩

/-- `True` for the two numeric constructors only. -/
def isNumeric : PyVal → Bool
  | PyVal.int _ => true
  | PyVal.float _ => true
  | _ => false

/-- C10: for every argument of the annotated union type, `smart_square`
never raises `NotImplementedError` (the first two `isinstance` tests
cover all four types, `bool` being a subtype of `int`); it raises an
exception exactly when the argument is a string the float constructor
rejects, every raised exception is a `ValueError`, and every normal
return is a number. -/
theorem smart_square_spec (parse : String → Option ℚ) (a : PyVal) :
    smart_square parse a ≠ Except.error PyErr.notImplementedError ∧
    ((∃ e, smart_square parse a = Except.error e) ↔
      (∃ s, a = PyVal.str s ∧ parse s = none)) ∧
    (∀ e, smart_square parse a = Except.error e → ∃ m, e = PyErr.valueError m) ∧
    (∀ v, smart_square parse a = Except.ok v →
      ∃ w, v = some w ∧ isNumeric w = true) := by
  cases a with
  | int i => simp [smart_square, isinstance_float_int, pyMulSelf, isNumeric]
  | float q => simp [smart_square, isinstance_float_int, pyMulSelf, isNumeric]
  | bool b => simp [smart_square, isinstance_float_int, pyMulSelf, isNumeric]
  | str s =>
    cases h : parse s with
    | none =>
      simp [smart_square, isinstance_float_int, isinstance_str_bool,
        isinstance_any, pyFloatOf, h, pyTypeName]
    | some q =>
      simp [smart_square, isinstance_float_int, isinstance_str_bool,
        isinstance_any, pyFloatOf, h, isNumeric]

/-- Witness for C10 at concrete inputs: an unparsable string raises a
`ValueError`, an int returns a number. -/
theorem smart_square_spec_witness :
    (∃ m, (PyErr.valueError
        "a should be of type float/int or convertible to float; got str") =
      PyErr.valueError m) ∧
    (∃ w, (some (PyVal.int 9) : Option PyVal) = some w ∧ isNumeric w = true) :=
  ⟨(smart_square_spec (fun _ => none) (PyVal.str "x")).2.2.1 _ rfl,
   (smart_square_spec (fun _ => none) (PyVal.int 3)).2.2.2 (some (PyVal.int 9)) rfl⟩

/-- C3: one construction of a `Map` issues exactly one outbound GET (the
trace is the one-element list), its query parameters `x` and `y` are the
pair `deg2num(latitude, longitude, zoom)` returns, `z` is `zoom`, and
`lyrs=s` is present among the parameters exactly when `satellite` is
true.  No further request appears in the trace (no retry, no backoff,
no cache). -/
theorem mapInit_single_request (M : MathOps)
    (fetch : Request → Except PyErr (List Nat))
    (imread : List Nat → Except PyErr (List (List Pixel)))
    (latitude longitude : ℚ) (satellite : Bool) (zoom : Nat) :
    (mapInit M fetch imread latitude longitude satellite zoom).2 =
      [mapRequest M latitude longitude satellite zoom] ∧
    (mapRequest M latitude longitude satellite zoom).base =
      "https://mt0.google.com/vt?" ∧
    List.lookup "x" (mapRequest M latitude longitude satellite zoom).params =
      some (toString (deg2num M latitude longitude zoom).1) ∧
    List.lookup "y" (mapRequest M latitude longitude satellite zoom).params =
      some (toString (deg2num M latitude longitude zoom).2) ∧
    List.lookup "z" (mapRequest M latitude longitude satellite zoom).params =
      some (toString (zoom : Int)) ∧
    ((("lyrs", "s") ∈ (mapRequest M latitude longitude satellite zoom).params)
      ↔ satellite = true) := by
  cases satellite <;>
    exact ⟨rfl, rfl, rfl, rfl, rfl, by simp [mapRequest]⟩

/-- C6: a successfully constructed `Map` stores in `pixels` exactly the
decode of the raw bytes stored in `image`, and `green`, `count_green`
and `deg2num` leave the state unchanged. -/
theorem map_pixels_invariant (M : MathOps)
    (fetch : Request → Except PyErr (List Nat))
    (imread : List Nat → Except PyErr (List (List Pixel)))
    (latitude longitude : ℚ) (satellite : Bool) (zoom : Nat) (m : MapModel)
    (h : (mapInit M fetch imread latitude longitude satellite zoom).1 =
      Except.ok m) :
    imread m.image = Except.ok m.pixels ∧
    (∀ t, (m.green t).2 = m) ∧
    (∀ t, (m.count_green t).2 = m) ∧
    (∀ M2 lat2 long2 zoom2, (m.deg2num_self M2 lat2 long2 zoom2).2 = m) := by
  refine ⟨?_, fun t => rfl, fun t => rfl, fun M2 lat2 long2 zoom2 => rfl⟩
  simp only [mapInit] at h
  cases hf : fetch (mapRequest M latitude longitude satellite zoom) with
  | error e =>
    rw [hf] at h
    exact Except.noConfusion
      (show (Except.error e : Except PyErr MapModel) = Except.ok m from h)
  | ok image =>
    rw [hf] at h
    have h1 : (do
        let pixels ← imread image
        pure (MapModel.mk image pixels) : Except PyErr MapModel) =
        Except.ok m := h
    cases hi : imread image with
    | error e =>
      rw [hi] at h1
      exact Except.noConfusion
        (show (Except.error e : Except PyErr MapModel) = Except.ok m from h1)
    | ok pixels =>
      rw [hi] at h1
      have h2 : Except.ok (MapModel.mk image pixels) = Except.ok m := h1
      rw [← Except.ok.inj h2]
      exact hi

/-- A fetch oracle that always succeeds with the bytes `[7]`. -/
def fetch0 : Request → Except PyErr (List Nat) := fun _ => Except.ok [7]

/-- A fetch oracle that always raises. -/
def fetchFail : Request → Except PyErr (List Nat) :=
  fun _ => Except.error (PyErr.valueError "connection refused")

/-- A decode oracle that always succeeds with a one-pixel image. -/
def imread0 : List Nat → Except PyErr (List (List Pixel)) :=
  fun _ => Except.ok [[⟨1, 2, 3⟩]]

/-- A decode oracle that always raises. -/
def imreadFail : List Nat → Except PyErr (List (List Pixel)) :=
  fun _ => Except.error (PyErr.valueError "not a PNG")

/-- A geocoder oracle that always raises. -/
def geocodeFail : String → Except PyErr (List (String × (ℚ × ℚ))) :=
  fun _ => Except.error (PyErr.valueError "service unavailable")

/-- A geocoder oracle that returns no results. -/
def geocodeEmpty : String → Except PyErr (List (String × (ℚ × ℚ))) :=
  fun _ => Except.ok []

/-- An arbitrary concrete instantiation of the math library. -/
def mathOps0 : MathOps := ⟨fun q => q, fun q => q, fun q => q, 3⟩

/-- The `Map` state `fetch0` / `imread0` construct. -/
def mapModel0 : MapModel := ⟨[7], [[⟨1, 2, 3⟩]]⟩

/-- Witness for C6 at concrete oracles. -/
theorem map_pixels_invariant_witness :
    imread0 mapModel0.image = Except.ok mapModel0.pixels ∧
    (mapModel0.green (11/10)).2 = mapModel0 ∧
    (mapModel0.count_green (11/10)).2 = mapModel0 ∧
    (mapModel0.deg2num_self mathOps0 0 0 10).2 = mapModel0 := by
  have h := map_pixels_invariant mathOps0 fetch0 imread0 0 0 true 10 mapModel0 rfl
  exact ⟨h.1, h.2.1 (11/10), h.2.2.1 (11/10), h.2.2.2 mathOps0 0 0 10⟩

/-- C7: no error handling anywhere in `Greengraph` or `Map`: an
exception raised by the fetch, the decode or the geocoding call (and the
`IndexError` of indexing an empty geocoder result) propagates unchanged
out of `Map.__init__`, `Greengraph.geolocate` and
`Greengraph.green_between`; nothing is caught, transformed or
retried. -/
theorem greengraph_error_propagation (M : MathOps)
    (fetch : Request → Except PyErr (List Nat))
    (imread : List Nat → Except PyErr (List (List Pixel)))
    (geocode : String → Except PyErr (List (String × (ℚ × ℚ))))
    (latitude longitude : ℚ) (satellite : Bool) (zoom : Nat)
    (place start stop : String) (steps : Nat) (e : PyErr) (bytes : List Nat) :
    (fetch (mapRequest M latitude longitude satellite zoom) = Except.error e →
      (mapInit M fetch imread latitude longitude satellite zoom).1 =
        Except.error e) ∧
    (fetch (mapRequest M latitude longitude satellite zoom) = Except.ok bytes →
      imread bytes = Except.error e →
      (mapInit M fetch imread latitude longitude satellite zoom).1 =
        Except.error e) ∧
    (geocode place = Except.error e →
      geolocate geocode place = Except.error e) ∧
    (geocode place = Except.ok [] →
      geolocate geocode place = Except.error PyErr.indexError) ∧
    (geolocate geocode start = Except.error e →
      green_between M fetch imread geocode start stop steps =
        Except.error e) := by
  refine ⟨?_, ?_, ?_, ?_, ?_⟩
  · intro h
    show (do
      let image ← fetch (mapRequest M latitude longitude satellite zoom)
      let pixels ← imread image
      pure (MapModel.mk image pixels) : Except PyErr MapModel) = Except.error e
    rw [h]
    rfl
  · intro h1 h2
    show (do
      let image ← fetch (mapRequest M latitude longitude satellite zoom)
      let pixels ← imread image
      pure (MapModel.mk image pixels) : Except PyErr MapModel) = Except.error e
    rw [h1]
    show (do
      let pixels ← imread bytes
      pure (MapModel.mk bytes pixels) : Except PyErr MapModel) = Except.error e
    rw [h2]
    rfl
  · intro h
    unfold geolocate
    rw [h]
    rfl
  · intro h
    unfold geolocate
    rw [h]
    rfl
  · intro h
    unfold green_between
    rw [h]
    rfl

/-- Witness for C7 at concrete failing oracles. -/
theorem greengraph_error_propagation_witness :
    (mapInit mathOps0 fetchFail imread0 0 0 true 10).1 =
      Except.error (PyErr.valueError "connection refused") ∧
    (mapInit mathOps0 fetch0 imreadFail 0 0 true 10).1 =
      Except.error (PyErr.valueError "not a PNG") ∧
    geolocate geocodeFail "London" =
      Except.error (PyErr.valueError "service unavailable") ∧
    geolocate geocodeEmpty "London" = Except.error PyErr.indexError ∧
    green_between mathOps0 fetch0 imread0 geocodeFail "London" "Oxford" 4 =
      Except.error (PyErr.valueError "service unavailable") := by
  refine ⟨?_, ?_, ?_, ?_, ?_⟩
  · exact (greengraph_error_propagation mathOps0 fetchFail imread0 geocodeFail
      0 0 true 10 "London" "London" "Oxford" 4 _ []).1 rfl
  · exact (greengraph_error_propagation mathOps0 fetch0 imreadFail geocodeFail
      0 0 true 10 "London" "London" "Oxford" 4 _ [7]).2.1 rfl rfl
  · exact (greengraph_error_propagation mathOps0 fetch0 imread0 geocodeFail
      0 0 true 10 "London" "London" "Oxford" 4 _ []).2.2.1 rfl
  · exact (greengraph_error_propagation mathOps0 fetch0 imread0 geocodeEmpty
      0 0 true 10 "London" "London" "Oxford" 4 PyErr.indexError []).2.2.2.1 rfl
  · exact (greengraph_error_propagation mathOps0 fetch0 imread0 geocodeFail
      0 0 true 10 "London" "London" "Oxford" 4 _ []).2.2.2.2 rfl

/-- The pointwise heart of C8: the square-root-free test
`value * conj(value) > 4` holds exactly when `abs(value) > 2`.
The product `v * conj(v)` has real part `re² + im²` and imaginary part
exactly `0`, so the lexicographic NumPy comparison against `4` reduces
to `normSq > 4`. -/
theorem absGt2_iff_npCgt (v : PyComplex) :
    absGt2 v ↔ npCgt (v.mul v.conj) 4 := by
  rw [absGt2_iff]
  unfold npCgt PyComplex.mul PyComplex.conj PyComplex.normSq
  constructor
  · intro h
    left
    show (4 : ℚ) < v.re * v.re - v.im * -v.im
    nlinarith
  · rintro (h | ⟨h1, h2⟩)
    · have h' : (4 : ℚ) < v.re * v.re - v.im * -v.im := h
      nlinarith
    · have h2' : (0 : ℚ) < v.re * -v.im + v.im * v.re := h2
      nlinarith

/-- The two divergence tests decide to the same boolean. -/
theorem decide_absGt2_eq (v : PyComplex) :
    decide (absGt2 v) = decide (npCgt (v.mul v.conj) 4) :=
  decide_eq_decide.mpr (absGt2_iff_npCgt v)

/-- The loops of `mandel4` and `mandel5` coincide on every state. -/
theorem mandel4Loop_eq_mandel5Loop :
    ∀ (limit : Nat) (position value : List PyComplex) (count : List Nat),
    mandel4Loop position value count limit = mandel5Loop position value count limit := by
  intro limit
  induction limit with
  | zero => intro p v c; rfl
  | succ l ih =>
    intro p v c
    show mandel4Loop p _ _ _ = mandel5Loop p _ _ _
    unfold mandel4Loop mandel5Loop
    rw [show (fun v => decide (absGt2 v)) =
        (fun v => decide (npCgt (v.mul v.conj) 4)) from
      funext decide_absGt2_eq]
    exact ih p _ _

/-- C8: for every complex position array and every limit, `mandel5`
returns exactly the `diverged_at_count` array `mandel4` returns: the
square-root-free test selects the same elements in every iteration. -/
theorem mandel4_eq_mandel5 (position : List PyComplex) (limit : Nat) :
    mandel4 position limit = mandel5 position limit := by
  unfold mandel4 mandel5
  rw [mandel4Loop_eq_mandel5Loop]

/-- The loop of `mandel1` returns a value between `0` and the incoming
non-negative `limit`, whatever the iterate is; induction on an upper
bound of the remaining iterations. -/
theorem mandel1Loop_eq (position v : PyComplex) (limit : Int) :
    mandel1Loop position v limit =
      if absLt2 v then
        if limit - 1 < 0 then 0
        else mandel1Loop position ((v.mul v).add position) (limit - 1)
      else limit := by
  conv_lhs => unfold mandel1Loop
  rfl

theorem mandel1Loop_bounds (position : PyComplex) :
    ∀ (n : Nat) (value : PyComplex) (limit : Int),
    (limit + 1).toNat ≤ n → 0 ≤ limit →
    0 ≤ mandel1Loop position value limit ∧
    mandel1Loop position value limit ≤ limit := by
  intro n
  induction n with
  | zero => intro v limit hn h0; omega
  | succ n ih =>
    intro v limit hn h0
    rw [mandel1Loop_eq]
    by_cases hv : absLt2 v
    · rw [if_pos hv]
      by_cases hneg : limit - 1 < 0
      · rw [if_pos hneg]
        omega
      · rw [if_neg hneg]
        have := ih ((v.mul v).add position) (limit - 1) (by omega) (by omega)
        omega
    · rw [if_neg hv]
      omega

/-- C9: for every complex position and every `limit ≥ 0`, `mandel1`
terminates (it is a total function of its arguments: the loop counter
strictly decreases and the loop exits at `0` as soon as it goes
negative) and its value lies between `0` and the initial `limit`. -/
theorem mandel1_terminates_bounded (position : PyComplex) (limit : Int)
    (h : 0 ≤ limit) :
    0 ≤ mandel1 position limit ∧ mandel1 position limit ≤ limit := by
  unfold mandel1
  exact mandel1Loop_bounds position ((limit + 1).toNat) position limit
    (le_refl _) h

/-- Witness for C9 at the concrete position `3 + 0j` and limit `2`. -/
theorem mandel1_terminates_bounded_witness :
    (0 : Int) ≤ 2 ∧ 0 ≤ mandel1 ⟨3, 0⟩ 2 ∧ mandel1 ⟨3, 0⟩ 2 ≤ 2 :=
  ⟨by decide, (mandel1_terminates_bounded ⟨3, 0⟩ 2 (by decide)).1,
    (mandel1_terminates_bounded ⟨3, 0⟩ 2 (by decide)).2⟩

/-- Counterexample to C4 as stated: `mandel7`'s result does not depend
only on its arguments.  With the same argument array `[[3 + 0j]]` and
the same limit `1`, `mandel7` returns normally when the module-level
`values` array has shape `(1, 1)` but raises `IndexError` when it has
shape `(2, 2)`, because the index grid `np.mgrid[0:values.shape[0],
0:values.shape[1]]` is built from the global array's shape. -/
theorem mandel7_global_shape_dependence :
    mandel7 (1, 1) [[⟨3, 0⟩]] 1 = Except.ok [[0]] ∧
    mandel7 (2, 2) [[⟨3, 0⟩]] 1 = Except.error PyErr.indexError ∧
    mandel7 (1, 1) [[⟨3, 0⟩]] 1 ≠ mandel7 (2, 2) [[⟨3, 0⟩]] 1 := by
  have h1 : mandel7 (1, 1) [[⟨3, 0⟩]] 1 = Except.ok [[0]] := by
    simp only [mandel7, mandel7Loop, mandelSquareAdd, mgridIndices, maskSelect,
      scatter, scatterSet, List.flatMap, List.range, List.range.loop, List.map,
      List.flatten, List.zipWith, List.zip, List.zipWith_cons_cons, List.length,
      List.filter, List.foldlM, PyComplex.mul, PyComplex.add, PyComplex.conj, npCgt]
    norm_num
  have h2 : mandel7 (2, 2) [[⟨3, 0⟩]] 1 = Except.error PyErr.indexError := by
    simp only [mandel7, mandel7Loop, mandelSquareAdd, mgridIndices, maskSelect,
      scatter, scatterSet, List.flatMap, List.range, List.range.loop, List.map,
      List.flatten, List.zipWith, List.zip, List.zipWith_cons_cons, List.length,
      List.filter, List.foldlM, PyComplex.mul, PyComplex.add, PyComplex.conj, npCgt]
    norm_num
  exact ⟨h1, h2, by rw [h1, h2]; exact fun hh => Except.noConfusion hh⟩

/-- C4 as amended: `green` and `count_green` depend only on the `pixels`
field and the threshold and leave the `Map` unchanged; `deg2num` depends
only on its three arguments (given the math library) and leaves the
`Map` unchanged; `mandel4`, `mandel5` and `mandel6` are functions of
their argument pair alone; `mandel7` is a function of its argument pair
and the module-level `values` shape.  None of them mutates the state it
was given (the returned state is the input state). -/
theorem stateless_routines_amended (m m2 : MapModel) (t : ℚ) (M : MathOps)
    (latitude longitude : ℚ) (zoom : Nat)
    (p p2 : List PyComplex) (q q2 : List (List PyComplex))
    (s : Nat × Nat) (limit limit2 : Nat) :
    (m.pixels = m2.pixels → (m.green t).1 = (m2.green t).1) ∧
    ((m.green t).2 = m) ∧
    (m.pixels = m2.pixels → (m.count_green t).1 = (m2.count_green t).1) ∧
    ((m.count_green t).2 = m) ∧
    ((m.deg2num_self M latitude longitude zoom).1 =
      (m2.deg2num_self M latitude longitude zoom).1) ∧
    ((m.deg2num_self M latitude longitude zoom).2 = m) ∧
    (p = p2 → limit = limit2 →
      mandel4 p limit = mandel4 p2 limit2 ∧
      mandel5 p limit = mandel5 p2 limit2 ∧
      mandel6 p limit = mandel6 p2 limit2) ∧
    (q = q2 → limit = limit2 → mandel7 s q limit = mandel7 s q2 limit2) := by
  refine ⟨?_, rfl, ?_, rfl, rfl, rfl, ?_, ?_⟩
  · intro h
    unfold MapModel.green
    rw [h]
  · intro h
    unfold MapModel.count_green MapModel.green
    rw [h]
  · rintro rfl rfl
    exact ⟨rfl, rfl, rfl⟩
  · rintro rfl rfl
    rfl

/-- Witness for C4's amended theorem: two states with equal pixels and
different raw bytes give the same `green` result. -/
theorem stateless_routines_amended_witness :
    (MapModel.mk [1] [[⟨1, 2, 3⟩]] |>.green (11/10)).1 =
      (MapModel.mk [2] [[⟨1, 2, 3⟩]] |>.green (11/10)).1 ∧
    mandel4 [⟨0, 0⟩] 1 = mandel4 [⟨0, 0⟩] 1 ∧
    mandel7 (1, 1) [[⟨0, 0⟩]] 1 = mandel7 (1, 1) [[⟨0, 0⟩]] 1 := by
  have h := stateless_routines_amended (MapModel.mk [1] [[⟨1, 2, 3⟩]])
    (MapModel.mk [2] [[⟨1, 2, 3⟩]]) (11/10) mathOps0 0 0 10
    [⟨0, 0⟩] [⟨0, 0⟩] [[⟨0, 0⟩]] [[⟨0, 0⟩]] (1, 1) 1 1
  exact ⟨h.1 rfl, (h.2.2.2.2.2.2.1 rfl rfl).1, h.2.2.2.2.2.2.2 rfl rfl⟩
